import Mathlib

/-!
Verification of the camera HAL data-plane core
(LineageOS/android_hardware_google_camera).

The development shallowly embeds the parts of the code the claims touch:

* `CameraHal.BufferCacheModel` — the imported-buffer-handle cache of
  `CameraDeviceSession` (camera_device_session.h).
* `CameraHal.ProcessBlock` — `RealtimeProcessBlock`
  (common/hal/utils/realtime_process_block.cc).
* `CameraHal.RequestProcessor` — `EmulatedRequestProcessor`
  (devices/EmulatedCamera/hwl/EmulatedRequestProcessor.cpp): request
  admission, the settings-override queue, the request-servicing loop and
  flush.
* `CameraHal.Sensor` — `EmulatedSensor`
  (devices/EmulatedCamera/hwl/EmulatedSensor.cpp): the sensor capture loop
  modelled as an event trace, result return, vsync wait and flush.

Machine integers are modelled as `Nat` with explicit reduction modulo `2 ^ 32`
where 32-bit wrap-around matters.  Fallible C++ calls whose implementation is
outside the analysed sources are modelled as explicit oracle parameters or,
where the repository only ships their declaration, from the specification
(each such definition carries a doc comment saying so).
-/

namespace CameraHal

/-- Android `status_t` values that appear in the analysed code, as an
abstract enumeration. -/
inductive Status where
  | ok
  | badValue
  | noInit
  | alreadyExists
  | timedOut
  | noMemory
  deriving DecidableEq, Repr

/-! ## Buffer cache (`CameraDeviceSession`, camera_device_session.h) -/

namespace BufferCacheModel

/-- Buffer cache key: a (stream id, buffer id) pair, mirroring `BufferCache`
used as the key of `imported_buffer_handle_map_`
(camera_device_session.h:322-328). -/
structure BufferCache where
  stream_id : Int
  buffer_id : Nat
  deriving DecidableEq, Repr

/-- An imported buffer handle (`buffer_handle_t`), abstracted to its
identity. -/
abbrev BufferHandle := Nat

/-- The imported buffer handle map, keyed by `BufferCache`. -/
abbrev HandleMap := List (BufferCache × BufferHandle)

/-- Lookup of a cache key in the imported buffer handle map. -/
def cacheLookup (m : HandleMap) (key : BufferCache) : Option BufferHandle :=
  match m with
  | [] => none
  | (k, h) :: rest => if k = key then some h else cacheLookup rest key

/-- Modelled from the spec: the body of
`CameraDeviceSession::AddImportedBufferHandlesLocked` lives in
camera_device_session.cc, which is not among the analysed sources; only its
declaration and doc comment are (camera_device_session.h:182-187).  Per that
comment and spec section 4.1: add the buffer handle under the cache key; if
the cache key is already in the map but the stored handle does not match,
return `BAD_VALUE` and leave the map unchanged; a matching handle is a benign
cache hit. -/
def addImportedBufferHandlesLocked (m : HandleMap) (key : BufferCache)
    (handle : BufferHandle) : Status × HandleMap :=
  match cacheLookup m key with
  | some stored => if stored = handle then (.ok, m) else (.badValue, m)
  | none => (.ok, (key, handle) :: m)

end BufferCacheModel

/-! ## Processing block (`RealtimeProcessBlock`, realtime_process_block.cc) -/

namespace ProcessBlock

/-- Modelled from the spec: the result processor implementations
(`ResultProcessor` subclasses) are not among the analysed sources; only the
calls `AddPendingRequests`, `ProcessResult` and `Notify` made by
realtime_process_block.cc are.  Per spec section 4.3 a processing block owns
exactly one outstanding request, so the processor is modelled by whether a
previously added pending request has not yet been resolved by a result
delivery. -/
structure ResultProcessor where
  pending : Bool
  deriving DecidableEq, Repr

/-- Modelled from the spec: `ResultProcessor::AddPendingRequests` fails
(rejecting the submission) when a previous submission's asynchronous
completion has not yet reached the result transform, and otherwise records
the new outstanding request. -/
def addPendingRequests (rp : ResultProcessor) : Status × ResultProcessor :=
  if rp.pending then (.badValue, rp) else (.ok, { pending := true })

/-- State of a `RealtimeProcessBlock` (realtime_process_block.cc:98-181):
whether `ConfigureStreams` succeeded, the pipeline id it obtained, and the
optionally-set result processor. -/
structure Block where
  is_configured : Bool
  pipeline_id : Nat
  result_processor : Option ResultProcessor
  deriving DecidableEq, Repr

/-- The `RealtimeProcessBlock::ConfigureStreams` logic
(realtime_process_block.cc:98-119).  `hwlConfigure` is the outcome of the
downstream `CameraDeviceSessionHwl::ConfigurePipeline` call (not part of the
block): a pipeline id on success, an error status otherwise. -/
def configureStreams (blk : Block) (hwlConfigure : Except Status Nat) :
    Status × Block :=
  if blk.is_configured then (.alreadyExists, blk)
  else
    match hwlConfigure with
    | .error e => (e, blk)
    | .ok pid => (.ok, { blk with is_configured := true, pipeline_id := pid })

/-- The `RealtimeProcessBlock::ProcessRequests` logic
(realtime_process_block.cc:138-181).  `numRequests` is the size of the
submitted batch; `createOk` abstracts `hal_utils::CreateHwlPipelineRequest`
and `submitRes` the downstream `SubmitRequests` call, both outside the
block.  Mirrors the code order: batch-size check, result-processor check,
`AddPendingRequests`, configuration check, request creation, submission. -/
def processRequests (blk : Block) (numRequests : Nat) (createOk : Bool)
    (submitRes : Status) : Status × Block :=
  if numRequests ≠ 1 then (.badValue, blk)
  else
    match blk.result_processor with
    | none => (.noInit, blk)
    | some rp =>
      let (res, rp2) := addPendingRequests rp
      let blk2 := { blk with result_processor := some rp2 }
      if res ≠ .ok then (res, blk2)
      else if ¬blk2.is_configured then (.noInit, blk2)
      else if ¬createOk then (.badValue, blk2)
      else (submitRes, blk2)

/-- The `RealtimeProcessBlock::NotifyHwlPipelineResult` logic
(realtime_process_block.cc:202-219): a result arriving after the result
processor has been unset is dropped; otherwise it is converted
(`convertOk` abstracts `ConvertToCaptureResult`) and forwarded to the
processor, resolving the outstanding request. -/
def notifyHwlPipelineResult (blk : Block) (convertOk : Bool) : Block :=
  match blk.result_processor with
  | none => blk
  | some _ =>
    if convertOk then { blk with result_processor := some { pending := false } }
    else blk

end ProcessBlock

/-! ## Shared data model: buffers, streams, callbacks, events -/

/-- Association-list lookup used for the various keyed maps of the code. -/
def assocLookup {α β : Type} [DecidableEq α] (l : List (α × β)) (k : α) :
    Option β :=
  match l with
  | [] => none
  | (k2, v) :: rest => if k2 = k then some v else assocLookup rest k

/-- `BufferStatus` (hal types): the status carried by a stream buffer. -/
inductive BufferStatus where
  | ok
  | error
  deriving DecidableEq, Repr

/-- A `HwlPipelineCallback`, abstracted to which of its function pointers are
non-null (the analysed code only ever checks them against `nullptr` before
invoking them). -/
structure HwlPipelineCallback where
  has_process_result : Bool
  has_notify : Bool
  deriving DecidableEq, Repr

/-- A framework `StreamBuffer`: stream id, optional buffer handle (null until
lazily acquired), optional acquire fence, and status. -/
structure StreamBuffer where
  stream_id : Int
  buffer : Option Nat
  acquire_fence : Option Nat
  status : BufferStatus
  deriving DecidableEq, Repr

/-- The fields of `EmulatedStream` the analysed code reads when building
sensor buffers (EmulatedRequestProcessor.cpp:361-417). -/
structure EmulatedStream where
  id : Int
  width : Nat
  height : Nat
  override_format : Nat
  is_input : Bool
  is_physical_camera_stream : Bool
  physical_camera_id : Nat
  deriving DecidableEq, Repr

/-- A `SensorBuffer` (GrallocSensorBuffer), restricted to the fields the
analysed control flow reads or writes. -/
structure SensorBuffer where
  width : Nat
  height : Nat
  format : Nat
  stream_buffer : StreamBuffer
  pipeline_id : Nat
  callback : HwlPipelineCallback
  frame_number : Nat
  camera_id : Nat
  is_input : Bool
  is_failed_request : Bool
  acquire_fence_fd : Option Nat
  deriving DecidableEq, Repr

/-- The notification error codes the analysed code emits. -/
inductive ErrorCode where
  | errorRequest
  | errorResult
  deriving DecidableEq, Repr

/-- Observable callback invocations of the emulated camera data plane, in
emission order: shutter notifications, error notifications, and partial and
final result deliveries. -/
inductive SensorEvent where
  | shutter (frame : Nat)
  | errorNotify (frame : Nat) (code : ErrorCode)
  | partialResult (frame : Nat)
  | finalResult (frame : Nat)
  deriving DecidableEq, Repr

/-- A `HwlPipelineResult` shell, restricted to the fields the analysed
control flow reads: frame number, pipeline id, whether `result_metadata` is
non-null, and the `partial_result` count field. -/
structure HwlPipelineResult where
  frame_number : Nat
  pipeline_id : Nat
  has_metadata : Bool
  partial_count : Nat
  deriving DecidableEq, Repr

/-! ## Request admission (`EmulatedRequestProcessor::ProcessPipelineRequests`,
EmulatedRequestProcessor.cpp:75-150), and the pipeline-depth bound
(`EmulatedSensor::kPipelineDepth`, EmulatedSensor.cpp:135). -/

namespace RequestProcessor

/-- EmulatedSensor.cpp:135 — reduce memory usage by allowing only one buffer
in sensor, one in jpeg compressor and one pending request. -/
def kPipelineDepth : Nat := 3

/-- A step of the pending-request queue, as seen under `process_mutex_`:
either `ProcessPipelineRequests` admits one request — which the code reaches
only once `pending_requests_.size() > kPipelineDepth` no longer holds
(EmulatedRequestProcessor.cpp:92-100, 140-146) — or `RequestProcessorLoop`
services and pops the front request
(EmulatedRequestProcessor.cpp:456-541).  The queue is abstracted to the
admitted frame numbers. -/
inductive AdmissionStep : List Nat → List Nat → Prop where
  | submit (q : List Nat) (f : Nat) (h : q.length ≤ kPipelineDepth) :
      AdmissionStep q (q ++ [f])
  | service (f : Nat) (q : List Nat) : AdmissionStep (f :: q) q

/-- Queue states reachable from the initially empty pending-request queue. -/
inductive ReachableQueue : List Nat → Prop where
  | init : ReachableQueue []
  | step {q q2 : List Nat} : ReachableQueue q → AdmissionStep q q2 →
      ReachableQueue q2

/-- One outcome of `request_condition_.wait_for` inside the admission loop:
either the waiter is woken (by the `notify_one` of a service pop, or
spuriously) and observes `pops` requests having left the queue since, or the
bounded wait times out. -/
inductive WaitEvent where
  | woken (pops : Nat)
  | timeout
  deriving DecidableEq, Repr

/-- Result of the admission wait loop. -/
inductive AdmissionWaitResult where
  | proceed (size : Nat)
  | timedOut
  | stillWaiting
  deriving DecidableEq, Repr

/-- The admission wait loop of `ProcessPipelineRequests`
(EmulatedRequestProcessor.cpp:92-100): while the queue holds strictly more
than `kPipelineDepth` requests, wait on the condition variable with a relative
timeout of `kSupportedFrameDurationRange[1]`; a timed-out wait makes the call
return `TIMED_OUT`.  `sz` is the current queue size and `evs` the successive
wait outcomes; `stillWaiting` means the supplied outcomes were exhausted with
the loop still blocked. -/
def admissionWait : Nat → List WaitEvent → AdmissionWaitResult
  | sz, evs =>
    if sz ≤ kPipelineDepth then .proceed sz
    else
      match evs with
      | [] => .stillWaiting
      | .timeout :: _ => .timedOut
      | .woken pops :: rest => admissionWait (sz - pops) rest

/-! ### Camera metadata and the settings-override queue
(`EmulatedRequestProcessor::ApplyOverrideSettings`,
EmulatedRequestProcessor.cpp:570-637). -/

/-- The metadata tags the override logic touches
(EmulatedRequestProcessor.cpp:586-597). -/
inductive Tag where
  | settingsOverride
  | zoomRatio
  | cropRegion
  | aeRegions
  | awbRegions
  | afRegions
  deriving DecidableEq, Repr

/-- A `HalCameraMetadata` snapshot restricted to the tags the analysed code
reads or writes, as a tag-to-entry association list.  An entry present in the
list models `Get` returning `OK` with `count == 1`; entry payloads are
abstracted to integers (the control flow only copies them). -/
abbrev Meta := List (Tag × Int)

/-- Metadata lookup (`HalCameraMetadata::Get`). -/
def metaGet (m : Meta) (t : Tag) : Option Int :=
  match m with
  | [] => none
  | (t2, v) :: rest => if t2 = t then some v else metaGet rest t

/-- Metadata update (`HalCameraMetadata::Set`): replaces the entry for the
tag, or appends it. -/
def metaSet (m : Meta) (t : Tag) (v : Int) : Meta :=
  match m with
  | [] => [(t, v)]
  | (t2, v2) :: rest =>
    if t2 = t then (t2, v) :: rest else (t2, v2) :: metaSet rest t v

/-- The `ANDROID_CONTROL_SETTINGS_OVERRIDE_ZOOM` enum value. -/
def settingsOverrideZoom : Int := 1

/-- One entry of `override_settings_`
(EmulatedRequestProcessor.cpp:133-139): the override settings snapshot
(`none` models the null pointer pushed for a request without settings) and
the frame number of the request that queued it. -/
structure OverrideEntry where
  settings : Option Meta
  frame_number : Nat
  deriving DecidableEq, Repr

/-- The override bookkeeping owned by the request processor: the
`override_settings_` queue (front first) and `last_override_settings_`. -/
structure OverrideState where
  queue : List OverrideEntry
  last_override : Option Meta
  deriving DecidableEq, Repr

/-- Modelled from the spec: `kZoomSpeedup` is declared in
EmulatedRequestProcessor.h, which is not among the analysed sources.  The
call-site comment (EmulatedRequestProcessor.cpp:605-606, skip until the
speed-up is at least 2 frames) and the spec's fixed ramp window fix its value
at 2. -/
def kZoomSpeedup : Nat := 2

/-- Unsigned 32-bit subtraction, as computed by
`override_frame_number - frame_number` on `uint32_t` operands
(EmulatedRequestProcessor.cpp:607). -/
def u32sub (a b : Nat) : Nat :=
  (2 ^ 32 + a % 2 ^ 32 - b % 2 ^ 32) % 2 ^ 32

/-- `EmulatedRequestProcessor::ApplyOverrideZoom`
(EmulatedRequestProcessor.cpp:617-637): copy the entry under `tag` from the
override settings into the request settings; a missing entry only logs. -/
def applyOverrideZoom (ov req : Meta) (t : Tag) : Meta :=
  match metaGet ov t with
  | some v => metaSet req t v
  | none => req

/-- The six `ApplyOverrideZoom` calls made for an active zoom override, in
code order (EmulatedRequestProcessor.cpp:586-597). -/
def applyOverrideZoomAll (ov req : Meta) : Meta :=
  applyOverrideZoom ov
    (applyOverrideZoom ov
      (applyOverrideZoom ov
        (applyOverrideZoom ov
          (applyOverrideZoom ov
            (applyOverrideZoom ov req .settingsOverride)
            .zoomRatio)
          .cropRegion)
        .aeRegions)
      .awbRegions)
    .afRegions

/-- Whether an override snapshot carries an active zoom override flag:
`Get(ANDROID_CONTROL_SETTINGS_OVERRIDE)` succeeds with one entry whose value
is `ANDROID_CONTROL_SETTINGS_OVERRIDE_ZOOM`
(EmulatedRequestProcessor.cpp:580-585). -/
def overrideFlagActive (m : Meta) : Bool :=
  match metaGet m .settingsOverride with
  | some v => v = settingsOverrideZoom
  | none => false

/-- Whether a queued override entry carries its own settings snapshot and
that snapshot's override flag is inactive — the entries the override loop
dequeues and reports nothing for, without consulting
`last_override_settings_`. -/
def entryFlagInactive (e : OverrideEntry) : Bool :=
  match e.settings with
  | some m => !overrideFlagActive m
  | none => false

/-- The loop body of `EmulatedRequestProcessor::ApplyOverrideSettings`
(EmulatedRequestProcessor.cpp:573-613), recursing on the override queue.
Arguments: the frame number being serviced, the (non-null) request settings
being mutated in place, the queue and `last_override_settings_`.  Returns the
reported override frame number (0 meaning no active override), the mutated
request settings, the remaining queue, and the new last-override snapshot.
A repeating entry (null settings) binds `override_setting` to
`last_override_settings_` and the code dereferences it unconditionally
(EmulatedRequestProcessor.cpp:576-582); when that snapshot is also null —
reachable, since lines 136-139 queue a null entry for every request without
settings while line 601 assigns `last_override_settings_` only after a
non-repeating entry — this is a null-pointer dereference, modelled as
`none`. -/
def applyOverrideSettingsAux (frame : Nat) :
    Meta → List OverrideEntry → Option Meta →
    Option (Nat × Meta × List OverrideEntry × Option Meta)
  | req, [], last => some (0, req, [], last)
  | req, e :: rest, last =>
    let repeating := e.settings.isNone
    match (if repeating then last else e.settings : Option Meta) with
    | none => none
    | some ovm =>
      let overriding := overrideFlagActive ovm
      let req2 := if overriding then applyOverrideZoomAll ovm req else req
      let last2 := if repeating then last else e.settings
      if kZoomSpeedup ≤ u32sub e.frame_number frame then
        some ((if overriding then e.frame_number else 0), req2, rest, last2)
      else
        applyOverrideSettingsAux frame req2 rest last2

/-- `EmulatedRequestProcessor::ApplyOverrideSettings`
(EmulatedRequestProcessor.cpp:570-615).  When the request settings pointer is
null the while condition fails immediately and 0 (no override) is returned
with the queue untouched; `none` propagates the loop's null-pointer
dereference. -/
def applyOverrideSettings (frame : Nat) (reqSettings : Option Meta)
    (st : OverrideState) : Option (Nat × Option Meta × OverrideState) :=
  match reqSettings with
  | none => some (0, none, st)
  | some req =>
    match applyOverrideSettingsAux frame req st.queue st.last_override with
    | none => none
    | some r => some (r.1, some r.2.1, ⟨r.2.2.1, r.2.2.2⟩)

/-! ### Sensor-buffer creation and request admission -/

/-- `EmulatedRequestProcessor::CreateSensorBuffer`
(EmulatedRequestProcessor.cpp:361-417).  `camera_id` is the processor's own
camera id; `lockOk` abstracts the outcome of `LockSensorBuffer` (gralloc
mapping, outside this core) and `fenceOk` the outcome of
`HandleImporter::importFence`; a failure of either nulls the buffer, which
the model renders as `none`.  The buffer's stream-buffer status is
initialised to the error state and flipped only if processing later
succeeds (EmulatedRequestProcessor.cpp:394-395). -/
def createSensorBuffer (camera_id frame_number pipeline_id : Nat)
    (cb : HwlPipelineCallback) (stream : EmulatedStream) (sb : StreamBuffer)
    (override_width override_height : Nat) (lockOk fenceOk : Bool) :
    Option SensorBuffer :=
  let useOverride := 0 < override_width ∧ 0 < override_height
  let base : SensorBuffer :=
    { width := if useOverride then override_width else stream.width
      height := if useOverride then override_height else stream.height
      format := stream.override_format
      stream_buffer := { sb with status := .error }
      pipeline_id := pipeline_id
      callback := cb
      frame_number := frame_number
      camera_id :=
        if stream.is_physical_camera_stream then stream.physical_camera_id
        else camera_id
      is_input := stream.is_input
      is_failed_request := false
      acquire_fence_fd := sb.acquire_fence }
  if sb.buffer.isSome ∧ ¬lockOk then none
  else if sb.acquire_fence.isSome ∧ ¬fenceOk then none
  else some base

/-- Oracles for the collaborator calls made while building sensor buffers:
whether the session callback `request_stream_buffers` is wired, the buffer it
returns for a lazily-acquired stream buffer (`none` for a failed
acquisition), and the per-buffer gralloc-lock and fence-import outcomes. -/
structure AdmissionOracles where
  hasRequestCb : Bool
  acquire : StreamBuffer → Option StreamBuffer
  lockOk : StreamBuffer → Bool
  fenceOk : StreamBuffer → Bool

/-- `EmulatedRequestProcessor::CreateSensorBuffers`
(EmulatedRequestProcessor.cpp:152-210): `none` exactly when the request
carried no buffers for this direction; otherwise the acquired buffers
(lazy acquisition through the session callback; if not all buffers could be
acquired the acquired ones are returned to the framework and the list is
cleared) are converted one by one, dropping conversion failures.  A stream id
absent from the pipeline's stream map is dropped as well (the code would
throw from `streams.at`). -/
def createSensorBuffers (camera_id frame_number pipeline_id : Nat)
    (streams : List (Int × EmulatedStream)) (cb : HwlPipelineCallback)
    (orc : AdmissionOracles) (override_width override_height : Nat)
    (buffers : List StreamBuffer) : Option (List SensorBuffer) :=
  if buffers.isEmpty then none
  else
    let requested := buffers.filterMap (fun b =>
      if b.buffer.isSome then some b
      else if orc.hasRequestCb then
        match orc.acquire b with
        | some b2 => if b2.buffer.isSome then some b2 else none
        | none => none
      else none)
    let requested2 := if requested.length < buffers.length then [] else requested
    some (requested2.filterMap (fun b =>
      match assocLookup streams b.stream_id with
      | some stream =>
        createSensorBuffer camera_id frame_number pipeline_id cb stream b
          override_width override_height (orc.lockOk b) (orc.fenceOk b)
      | none => none))

/-- One entry of `pending_requests_`
(EmulatedRequestProcessor.cpp:140-146). -/
structure PendingRequest where
  frame_number : Nat
  pipeline_id : Nat
  callback : HwlPipelineCallback
  settings : Option Meta
  input_buffers : Option (List SensorBuffer)
  output_buffers : Option (List SensorBuffer)
  deriving DecidableEq, Repr

/-- An `EmulatedPipeline`: its stream map and pipeline callback. -/
structure Pipeline where
  streams : List (Int × EmulatedStream)
  cb : HwlPipelineCallback
  deriving DecidableEq, Repr

/-- A `HwlPipelineRequest` as submitted to `ProcessPipelineRequests`.
`dynamic_ok` abstracts the outcome of
`EmulatedLogicalRequestState::UpdateRequestForDynamicStreams`
(EmulatedLogicalRequestState.cpp is not among the analysed sources). -/
structure HwlPipelineRequest where
  pipeline_id : Nat
  settings : Option Meta
  output_buffers : List StreamBuffer
  input_buffers : List StreamBuffer
  input_width : Nat
  input_height : Nat
  dynamic_ok : Bool
  deriving DecidableEq, Repr

/-- The request-processor state mutated by `ProcessPipelineRequests`: the
pending-request queue and the override-settings queue (both front first). -/
structure ProcessorState where
  pending : List PendingRequest
  override_settings : List OverrideEntry
  deriving DecidableEq, Repr

/-- Admission of a single request inside the `ProcessPipelineRequests` loop
(EmulatedRequestProcessor.cpp:85-147), with no concurrent servicing thread:
invalid pipeline id fails with `BAD_VALUE`; a full queue makes every bounded
wait time out — nothing pops concurrently — so the call fails with
`TIMED_OUT` (the general wait loop is `admissionWait`); a dynamic-stream
update failure propagates its error; a request without output buffers fails
with `NO_MEMORY`.  Only after all checks are the override entry (pushed for a
request whose settings carry `ANDROID_CONTROL_SETTINGS_OVERRIDE`, or for a
request with null settings) and the pending request appended. -/
def admitOne (pipelines : List Pipeline) (camera_id frame : Nat)
    (orc : AdmissionOracles) (r : HwlPipelineRequest) (st : ProcessorState) :
    Except Status ProcessorState :=
  match pipelines.get? r.pipeline_id with
  | none => .error .badValue
  | some pl =>
    if kPipelineDepth < st.pending.length then .error .timedOut
    else if ¬r.dynamic_ok then .error .badValue
    else
      match createSensorBuffers camera_id frame r.pipeline_id pl.streams pl.cb
          orc 0 0 r.output_buffers with
      | none => .error .noMemory
      | some outBufs =>
        let inBufs := createSensorBuffers camera_id frame r.pipeline_id
          pl.streams pl.cb orc r.input_width r.input_height r.input_buffers
        let ovPush : List OverrideEntry :=
          match r.settings with
          | some m =>
            if (metaGet m .settingsOverride).isSome then [⟨some m, frame⟩]
            else []
          | none => [⟨none, frame⟩]
        .ok { pending := st.pending ++
                [⟨frame, r.pipeline_id, pl.cb, r.settings, inBufs, some outBufs⟩]
              override_settings := st.override_settings ++ ovPush }

/-- `EmulatedRequestProcessor::ProcessPipelineRequests`
(EmulatedRequestProcessor.cpp:75-150): fold the admission of each request of
the batch, returning the first error immediately — requests admitted earlier
in the same call stay admitted. -/
def processPipelineRequests (pipelines : List Pipeline)
    (camera_id frame : Nat) (orc : AdmissionOracles) :
    List HwlPipelineRequest → ProcessorState → Status × ProcessorState
  | [], st => (.ok, st)
  | r :: rs, st =>
    match admitOne pipelines camera_id frame orc r st with
    | .ok st2 => processPipelineRequests pipelines camera_id frame orc rs st2
    | .error e => (e, st)

end RequestProcessor

/-! ## Sensor capture loop (`EmulatedSensor`, EmulatedSensor.cpp) -/

namespace Sensor

open RequestProcessor

/-- `EmulatedSensor::LogicalCameraSettings`, abstracted to a map from camera
id to the settings snapshot the logical request state derived for it. -/
abbrev LogicalSettings := List (Nat × Meta)

/-- Modelled from the spec:
`EmulatedLogicalRequestState::InitializeLogicalSettings`
(EmulatedLogicalRequestState.cpp is not among the analysed sources).  Per the
spec (section 3, CaptureRequest invariant) a request whose settings snapshot
is absent must fail; the model succeeds exactly when a snapshot is supplied,
producing the logical-camera settings map consumed by the sensor. -/
def initializeLogicalSettings (logicalId : Nat) :
    Option Meta → Except Status LogicalSettings
  | some m => .ok [(logicalId, m)]
  | none => .error .badValue

/-- The latched current-request state of the sensor, written by
`EmulatedSensor::SetCurrentRequest` (EmulatedSensor.cpp:688-700) and swapped
out at the top of each `threadLoop` iteration (EmulatedSensor.cpp:789-801):
logical settings, final and partial result shells, input and output
buffers.  A `none` field models a null unique pointer. -/
structure LatchPayload where
  settings : Option LogicalSettings
  result : Option HwlPipelineResult
  partial_result : Option HwlPipelineResult
  input_buffers : Option (List SensorBuffer)
  output_buffers : Option (List SensorBuffer)
  deriving DecidableEq, Repr

/-- The latch after the iteration's swap: every field null. -/
def emptyLatch : LatchPayload := ⟨none, none, none, none, none⟩

/-- `EmulatedSensor::ReturnResults` (EmulatedSensor.cpp:1289-1436), as the
events it emits: nothing unless the callback is wired, the result is present
with metadata, and the logical camera id resolves in both the settings map
and the characteristics map; otherwise the partial result (only when its
`partial_result` count is non-zero) strictly followed by the final result.
Calling it with a present result but null settings would dereference null in
the code; the loop never does (both are swapped out together), and the model
emits nothing. -/
def returnResults (chars : List Nat) (logicalId : Nat)
    (cb : HwlPipelineCallback) (settings : Option LogicalSettings)
    (result partialRes : Option HwlPipelineResult) : List SensorEvent :=
  match result with
  | none => []
  | some r =>
    if cb.has_process_result ∧ r.has_metadata then
      match settings with
      | none => []
      | some s =>
        match assocLookup s logicalId with
        | none => []
        | some _ =>
          if logicalId ∈ chars then
            (match partialRes with
             | some p =>
               if p.partial_count ≠ 0 then [.partialResult p.frame_number]
               else []
             | none => []) ++ [.finalResult r.frame_number]
          else []
    else []

/-- The pipeline callback the loop iteration uses: taken from the first
latched output buffer when both buffers and settings are latched
(EmulatedSensor.cpp:852-853), otherwise the all-null callback initialised at
the top of the iteration (EmulatedSensor.cpp:784-788).  A latched empty
buffer list would make the code's `at(0)` throw; the loop never latches one
(`RequestProcessorLoop` requires usable output buffers first), and the model
yields the null callback. -/
def latchCallback (latch : LatchPayload) : HwlPipelineCallback :=
  match latch.output_buffers, latch.settings with
  | some (b :: _), some _ => b.callback
  | _, _ => ⟨false, false⟩

/-- The shutter notification of a loop iteration
(EmulatedSensor.cpp:852-863): emitted for the first latched buffer's frame,
before synthesis and result return, when buffers and settings are latched
and the callback's notify function is wired. -/
def shutterEvents (latch : LatchPayload) : List SensorEvent :=
  match latch.output_buffers, latch.settings with
  | some (b :: _), some _ =>
    if (latchCallback latch).has_notify then [.shutter b.frame_number]
    else []
  | _, _ => []

/-- One iteration of `EmulatedSensor::threadLoop`
(EmulatedSensor.cpp:769-1287), as the events it emits for the latched
request.  `chars` is the set of camera ids with sensor characteristics,
`early` whether the post-synthesis deadline check
`work_done_real_time + kReturnResultThreshod > frame_end_real_time`
(EmulatedSensor.cpp:1264) took the early-return branch.  The callback comes
from the first output buffer when both buffers and settings are latched
(EmulatedSensor.cpp:852-853); the shutter notification precedes synthesis
and result return (EmulatedSensor.cpp:854-863).  When the early branch runs,
the second `ReturnResults` call after the cadence sleep sees the moved-from
(null) settings, result and partial result. -/
def threadLoopIter (chars : List Nat) (logicalId : Nat)
    (latch : LatchPayload) (early : Bool) : List SensorEvent :=
  let cb := latchCallback latch
  let r1 :=
    if early then
      returnResults chars logicalId cb latch.settings latch.result
        latch.partial_result
    else []
  let r2 :=
    if early then returnResults chars logicalId cb none none none
    else
      returnResults chars logicalId cb latch.settings latch.result
        latch.partial_result
  shutterEvents latch ++ r1 ++ r2

/-- A run of the sensor loop: before each iteration the producer may latch a
new request (`SetCurrentRequest` overwrites every latched field), and each
iteration swaps the latch out, leaving it empty. -/
def sensorRun (chars : List Nat) (logicalId : Nat) :
    LatchPayload → List (Option LatchPayload × Bool) → List SensorEvent
  | _, [] => []
  | latch, (newReq, early) :: rest =>
    threadLoopIter chars logicalId (newReq.getD latch) early ++
      sensorRun chars logicalId emptyLatch rest

/-- Whether an event is a partial or final result delivery for frame f. -/
def isResultEventFor (f : Nat) : SensorEvent → Bool
  | .partialResult f2 => f2 = f
  | .finalResult f2 => f2 = f
  | _ => false

/-- Whether a latched payload can emit result events for frame f: its final
or partial result shell carries that frame number. -/
def payloadMentions (p : LatchPayload) (f : Nat) : Bool :=
  (match p.result with
   | some r => r.frame_number = f
   | none => false) ||
  (match p.partial_result with
   | some q => q.frame_number = f
   | none => false)

/-- Lifts `payloadMentions` to the optional payload a producer may latch
before an iteration. -/
def mentionsOpt (op : Option LatchPayload) (f : Nat) : Bool :=
  match op with
  | some p => payloadMentions p f
  | none => false

/-- Frame coherence of a latched payload: its partial and final result
shells, when both present, carry the same frame number (the request loop
always creates both shells for the one frame it services). -/
def payloadCoherent (p : LatchPayload) : Bool :=
  match p.result, p.partial_result with
  | some r, some q => q.frame_number = r.frame_number
  | _, _ => true

/-- All frame numbers carried by a latched payload equal f. -/
def payloadFrame (p : LatchPayload) (f : Nat) : Bool :=
  (match p.result with
   | some r => r.frame_number = f
   | none => true) &&
  (match p.partial_result with
   | some q => q.frame_number = f
   | none => true) &&
  (match p.output_buffers with
   | some l => l.all (fun b => b.frame_number = f)
   | none => true)

/-- Whether every latched output buffer's callback has its notify function
wired. -/
def notifyWired (p : LatchPayload) : Bool :=
  match p.output_buffers with
  | some l => l.all (fun b => b.callback.has_notify)
  | none => true

/-- The per-buffer portion of the synthesis stage of `threadLoop`
(EmulatedSensor.cpp:864-1240): a buffer whose camera id has no latched
device settings or no sensor characteristics is erased before synthesis,
its status untouched (EmulatedSensor.cpp:866-880); a buffer that reaches
synthesis first has its status set to OK (EmulatedSensor.cpp:920) and the
format-specific branch — abstracted by `synthOk` — either leaves it OK or
resets it to the error state (this includes the compressed formats, whose
buffers are handed to the asynchronous jpeg compressor with error status).
Returns the buffer and whether it reached synthesis. -/
def synthesizeBuffer (settingsIds charsIds : List Nat) (synthOk : Bool)
    (b : SensorBuffer) : SensorBuffer × Bool :=
  if b.camera_id ∈ settingsIds then
    if b.camera_id ∈ charsIds then
      let b2 :=
        { b with stream_buffer := { b.stream_buffer with status := .ok } }
      if synthOk then (b2, true)
      else
        ({ b2 with
           stream_buffer := { b2.stream_buffer with status := .error } },
         true)
    else (b, false)
  else (b, false)

/-- The reprocess-completion step (EmulatedSensor.cpp:1243-1249): once a
reprocess request's synthesis loop finishes, every input buffer's status is
set to OK before the input list is cleared. -/
def completeReprocessInputs (bs : List SensorBuffer) : List SensorBuffer :=
  bs.map (fun b => { b with stream_buffer := { b.stream_buffer with status := .ok } })

/-- One outcome of `vsync_.waitRelative` inside
`EmulatedSensor::WaitForVSyncLocked` (EmulatedSensor.cpp:702-713): a wake or
a timed-out wait — each paired with whether `got_vsync_` had been signalled
by the loop's swap by then — or a condition-variable error. -/
inductive CvOutcome where
  | wake (vsync : Bool)
  | timedOut (vsync : Bool)
  | fail
  deriving DecidableEq, Repr

/-- `EmulatedSensor::WaitForVSyncLocked` (EmulatedSensor.cpp:702-713) over a
list of successive wait outcomes: the loop keeps waiting until `got_vsync_`
is observed (`some true`), returns `some false` only on a condition-variable
error, and — because a timed-out wait is explicitly tolerated and retried —
is still waiting (`none`) after any number of vsync-less timeouts. -/
def waitForVSyncLocked : List CvOutcome → Option Bool
  | [] => none
  | .fail :: _ => some false
  | .wake v :: rest => if v then some true else waitForVSyncLocked rest
  | .timedOut v :: rest => if v then some true else waitForVSyncLocked rest

/-- `EmulatedSensor::Flush` (EmulatedSensor.cpp:721-760), after its vsync
wait has returned with `waitRet`: the latched input buffers are cleared; if
output buffers are latched they are all marked with error status and — when
a result shell with metadata and a wired notify callback are present — a
single error-result notification is emitted for the latched frame; the call
reports OK exactly when the wait succeeded, `TIMED_OUT` otherwise.  Returns
the events, the flushed (error-marked) output buffers, the latch afterwards,
and the status. -/
def sensorFlush (latch : LatchPayload) (waitRet : Bool) :
    List SensorEvent × List SensorBuffer × LatchPayload × Status :=
  let markedOut : List SensorBuffer :=
    match latch.output_buffers with
    | some bs =>
      bs.map (fun b =>
        { b with stream_buffer := { b.stream_buffer with status := .error } })
    | none => []
  let events : List SensorEvent :=
    match latch.output_buffers with
    | some (b :: _) =>
      if ((match latch.result with
           | some r => r.has_metadata
           | none => false) && b.callback.has_notify : Bool) then
        [.errorNotify b.frame_number .errorResult]
      else []
    | _ => []
  let latch2 : LatchPayload :=
    { latch with
      input_buffers :=
        match latch.input_buffers with
        | some (_ :: _) => some []
        | x => x
      output_buffers :=
        match latch.output_buffers with
        | some (_ :: _) => some []
        | x => x }
  (events, markedOut, latch2, if waitRet then .ok else .timedOut)

end Sensor

/-! ## Request servicing and flush (`EmulatedRequestProcessor`) -/

namespace RequestProcessor

open Sensor

/-- `EmulatedRequestProcessor::AcquireBuffers`
(EmulatedRequestProcessor.cpp:419-447): `none` for a null or empty buffer
list; otherwise the buffers whose acquire fence is absent or whose fence
wait (`syncOk`) succeeded. -/
def acquireBuffers (syncOk : SensorBuffer → Bool) :
    Option (List SensorBuffer) → Option (List SensorBuffer)
  | none => none
  | some bs =>
    if bs.isEmpty then none
    else some (bs.filter (fun b => b.acquire_fence_fd.isNone || syncOk b))

/-- The body of `EmulatedRequestProcessor::RequestProcessorLoop` servicing
the front pending request (EmulatedRequestProcessor.cpp:456-541).
`partialCount` is the `partial_result` count the logical request state puts
in the partial result shell (`InitializeLogicalResult`).  If usable output
buffers remain after fence waits: with settings present, the override queue
is applied to them (mutating them in place), the logical settings are
initialised from the mutated settings and `last_settings_` is replaced by
them; with settings absent, the override queue is applied to the cached
`last_settings_` and the logical settings are initialised from that snapshot
— failing when there is none.  A failure emits an error-result notification
instead of latching anything; otherwise the request is latched into the
sensor via `SetCurrentRequest`.  Returns the emitted events, the latched
payload if any, the new `last_settings_` and the new override state; `none`
propagates the override loop's null-pointer dereference. -/
def serviceOneRequest (logicalId : Nat) (syncOk : SensorBuffer → Bool)
    (partialCount : Nat) (req : PendingRequest) (last : Option Meta)
    (ov : OverrideState) :
    Option (List SensorEvent × Option LatchPayload × Option Meta ×
      OverrideState) :=
  let outBufs := acquireBuffers syncOk req.output_buffers
  let inBufs := acquireBuffers syncOk req.input_buffers
  match outBufs with
  | some obs =>
    if obs.isEmpty then
      some ([.errorNotify req.frame_number .errorResult], none, last, ov)
    else
      match req.settings with
      | some m =>
        match applyOverrideSettingsAux req.frame_number m ov.queue
            ov.last_override with
        | none => none
        | some r =>
          let m2 := r.2.1
          match initializeLogicalSettings logicalId (some m2) with
          | .ok logical =>
            some ([],
              some ⟨some logical,
                some ⟨req.frame_number, req.pipeline_id, true, 0⟩,
                some ⟨req.frame_number, req.pipeline_id, true, partialCount⟩,
                inBufs, some obs⟩,
              some m2, ⟨r.2.2.1, r.2.2.2⟩)
          | .error _ =>
            some ([.errorNotify req.frame_number .errorResult], none, some m2,
              ⟨r.2.2.1, r.2.2.2⟩)
      | none =>
        match applyOverrideSettings req.frame_number last ov with
        | none => none
        | some r =>
          let last2 := r.2.1
          match initializeLogicalSettings logicalId last2 with
          | .ok logical =>
            some ([],
              some ⟨some logical,
                some ⟨req.frame_number, req.pipeline_id, true, 0⟩,
                some ⟨req.frame_number, req.pipeline_id, true, partialCount⟩,
                inBufs, some obs⟩,
              last2, r.2.2)
          | .error _ =>
            some ([.errorNotify req.frame_number .errorResult], none, last2,
              r.2.2)
  | none => some ([.errorNotify req.frame_number .errorResult], none, last, ov)

/-- `EmulatedRequestProcessor::NotifyFailedRequest`
(EmulatedRequestProcessor.cpp:212-227): flag every output buffer of the
request as belonging to a failed request and emit one `ERROR_REQUEST`
notification for its frame. -/
def notifyFailedRequest (req : PendingRequest) :
    PendingRequest × SensorEvent :=
  ({ req with
     output_buffers :=
       req.output_buffers.map (fun bs =>
         bs.map (fun b => { b with is_failed_request := true })) },
   .errorNotify req.frame_number .errorRequest)

/-- The outcome of `EmulatedRequestProcessor::Flush`. -/
structure FlushResult where
  events : List SensorEvent
  flushed_sensor_buffers : List SensorBuffer
  drained_requests : List PendingRequest
  remaining : List PendingRequest
  latch : LatchPayload
  ret : Status
  deriving DecidableEq, Repr

/-- `EmulatedRequestProcessor::Flush` (EmulatedRequestProcessor.cpp:229-242):
first flush the sensor (aborting the at-most-one latched in-flight frame),
then pop every pending request, notifying each as a failed request; the
pending queue is left empty. -/
def flush (latch : LatchPayload) (waitRet : Bool)
    (pending : List PendingRequest) : FlushResult :=
  let s := sensorFlush latch waitRet
  let drained := pending.map notifyFailedRequest
  { events := s.1 ++ drained.map (·.2)
    flushed_sensor_buffers := s.2.1
    drained_requests := drained.map (·.1)
    remaining := []
    latch := s.2.2.1
    ret := s.2.2.2 }

end RequestProcessor

/-! ## Concrete sample values used by the witnesses -/

namespace Samples

open RequestProcessor Sensor

/-- A sample output stream. -/
def sampleStream : EmulatedStream := ⟨0, 640, 480, 34, false, false, 0⟩

/-- A fully wired pipeline callback. -/
def sampleCb : HwlPipelineCallback := ⟨true, true⟩

/-- A sample pipeline mapping stream id 0 to `sampleStream`. -/
def samplePipeline : Pipeline := ⟨[(0, sampleStream)], sampleCb⟩

/-- A sample framework stream buffer with a pre-supplied handle and no
fence. -/
def sampleBuf : StreamBuffer := ⟨0, some 1, none, .ok⟩

/-- Admission oracles: no lazy buffer acquisition callback, gralloc locking
and fence imports succeed. -/
def sampleOracles : AdmissionOracles :=
  ⟨false, fun _ => none, fun _ => true, fun _ => true⟩

/-- A well-formed request against pipeline 0. -/
def sampleGoodReq : HwlPipelineRequest := ⟨0, none, [sampleBuf], [], 0, 0, true⟩

/-- A request naming the nonexistent pipeline 5. -/
def sampleBadReq : HwlPipelineRequest := ⟨5, none, [sampleBuf], [], 0, 0, true⟩

/-- The sensor buffer `createSensorBuffer` builds for `sampleBuf` at frame
42 on pipeline 0 of camera 7. -/
def sampleSensorBuf : SensorBuffer :=
  ⟨640, 480, 34, ⟨0, some 1, none, .error⟩, 0, sampleCb, 42, 7, false, false,
    none⟩

/-- The processor state after `sampleGoodReq` is admitted at frame 42 from
the empty state. -/
def sampleStateAfter : ProcessorState :=
  ⟨[⟨42, 0, sampleCb, none, none, some [sampleSensorBuf]⟩], [⟨none, 42⟩]⟩

/-- The pending request admitted for `sampleGoodReq`: frame 42, no settings,
one output sensor buffer. -/
def samplePendingReq : PendingRequest :=
  ⟨42, 0, sampleCb, none, none, some [sampleSensorBuf]⟩

/-- A final result shell for frame 42 with metadata. -/
def sampleResult : HwlPipelineResult := ⟨42, 0, true, 0⟩

/-- A partial result shell for frame 42 with one partial result. -/
def samplePartialResult : HwlPipelineResult := ⟨42, 0, true, 1⟩

/-- A fully latched sensor request for frame 42 on logical camera 7. -/
def sampleLatch : LatchPayload :=
  ⟨some [(7, [])], some sampleResult, some samplePartialResult, none,
    some [sampleSensorBuf]⟩

/-- A second pending request, at frame 43. -/
def samplePendingReq2 : PendingRequest :=
  ⟨43, 0, sampleCb, none, none, some [sampleSensorBuf]⟩

end Samples

/-! ## Theorems settling the claims -/

open BufferCacheModel

/-- C2: for every (stream id, buffer id) cache key, re-importing the same
handle is a benign cache hit (success, map untouched); importing a different
handle for an already-mapped key fails with `BAD_VALUE` without mutating the
cache, so the original key-to-handle mapping is retained afterwards. -/
theorem C2_cache_identity (m : HandleMap) (key : BufferCache)
    (h h2 : BufferHandle) (hm : cacheLookup m key = some h) :
    addImportedBufferHandlesLocked m key h = (.ok, m) ∧
    (h2 ≠ h →
      addImportedBufferHandlesLocked m key h2 = (.badValue, m) ∧
      cacheLookup (addImportedBufferHandlesLocked m key h2).2 key = some h) := by
  refine ⟨?_, fun hne => ?_⟩
  · simp [addImportedBufferHandlesLocked, hm]
  · have hne2 : ¬h = h2 := fun hc => hne hc.symm
    constructor
    · simp [addImportedBufferHandlesLocked, hm, hne2]
    · simp [addImportedBufferHandlesLocked, hm, hne2]

section C1Theorems

open RequestProcessor

/-- Helper: the admission guard admits a request only while the queue holds
at most `kPipelineDepth` entries, so any reachable queue holds at most
`kPipelineDepth + 1`. -/
theorem reachableQueue_length_le {q : List Nat} (h : ReachableQueue q) :
    q.length ≤ kPipelineDepth + 1 := by
  induction h with
  | init => simp
  | step _ hstep ih =>
    cases hstep with
    | submit q f hle =>
      simp only [List.length_append, List.length_cons, List.length_nil]
      omega
    | service f q =>
      simp only [List.length_cons] at ih
      omega

/-- C1 (corrected): the admission loop of `ProcessPipelineRequests` blocks
only while the pending queue holds strictly more than `kPipelineDepth`
requests, so the queue is bounded by `kPipelineDepth + 1` — not
`kPipelineDepth` as claimed; the bounded wait does fail with `TIMED_OUT`
as soon as one wait period times out, and the wait loop releases a blocked
submitter only once the queue size has dropped to at most
`kPipelineDepth`. -/
theorem C1_admission_bound {q : List Nat} (h : ReachableQueue q) :
    q.length ≤ kPipelineDepth + 1 ∧
    (∀ (sz : Nat) (evs : List WaitEvent), kPipelineDepth < sz →
      admissionWait sz (.timeout :: evs) = .timedOut) ∧
    (∀ (sz sz2 : Nat) (evs : List WaitEvent),
      admissionWait sz evs = .proceed sz2 → sz2 ≤ kPipelineDepth) := by
  refine ⟨reachableQueue_length_le h, ?_, ?_⟩
  · intro sz evs hsz
    unfold admissionWait
    simp [Nat.not_le.mpr hsz]
  · intro sz sz2 evs
    induction evs generalizing sz with
    | nil =>
      intro hp
      unfold admissionWait at hp
      by_cases hle : sz ≤ kPipelineDepth
      · simp only [if_pos hle, AdmissionWaitResult.proceed.injEq] at hp
        omega
      · simp [if_neg hle] at hp
    | cons e rest ih =>
      intro hp
      unfold admissionWait at hp
      by_cases hle : sz ≤ kPipelineDepth
      · simp only [if_pos hle, AdmissionWaitResult.proceed.injEq] at hp
        omega
      · simp only [if_neg hle] at hp
        cases e with
        | timeout => simp at hp
        | woken pops => exact ih _ hp

/-- Witness for C1 at a concrete reachable queue. -/
theorem C1_admission_bound_witness :
    ReachableQueue [5] ∧
    ([5].length ≤ kPipelineDepth + 1 ∧
    (∀ (sz : Nat) (evs : List WaitEvent), kPipelineDepth < sz →
      admissionWait sz (.timeout :: evs) = .timedOut) ∧
    (∀ (sz sz2 : Nat) (evs : List WaitEvent),
      admissionWait sz evs = .proceed sz2 → sz2 ≤ kPipelineDepth)) :=
  have h5 : ReachableQueue [5] :=
    .step .init (.submit [] 5 (by decide))
  ⟨h5, C1_admission_bound h5⟩

/-- Counterexample to C1 as stated: four requests admitted from the empty
queue with no intervening servicing — each admitted because the guard
`pending_requests_.size() > kPipelineDepth` was not yet strict — leave four
frames in the pending queue, exceeding `kPipelineDepth = 3`. -/
theorem C1_counterexample :
    ReachableQueue [0, 1, 2, 3] ∧
    ¬((0 : Nat) :: [1, 2, 3]).length ≤ kPipelineDepth := by
  constructor
  · have h0 : ReachableQueue [] := .init
    have h1 : ReachableQueue [0] := .step h0 (.submit [] 0 (by decide))
    have h2 : ReachableQueue [0, 1] := .step h1 (.submit [0] 1 (by decide))
    have h3 : ReachableQueue [0, 1, 2] := .step h2 (.submit [0, 1] 2 (by decide))
    exact .step h3 (.submit [0, 1, 2] 3 (by decide))
  · decide

end C1Theorems

section C4Theorems

open RequestProcessor

/-- Helper: when every queued override entry carries its own settings
snapshot and none of those snapshots has an active zoom override flag, the
override loop completes (never touching `last_override_settings_`) and
reports no active override. -/
theorem applyOverrideSettingsAux_no_active_flag (frame : Nat)
    (queue : List OverrideEntry) :
    ∀ (req : Meta) (last : Option Meta),
    (∀ e ∈ queue, entryFlagInactive e = true) →
    (applyOverrideSettingsAux frame req queue last).map (fun r => r.1) =
      some 0 := by
  induction queue with
  | nil => intro req last _; rfl
  | cons e rest ih =>
    intro req last hq
    have he := hq e (by simp)
    have hrest : ∀ e2 ∈ rest, entryFlagInactive e2 = true :=
      fun e2 h2 => hq e2 (by simp [h2])
    cases hset : e.settings with
    | none => simp [entryFlagInactive, hset] at he
    | some m =>
      have hm : overrideFlagActive m = false := by
        simpa [entryFlagInactive, hset] using he
      simp only [applyOverrideSettingsAux, hset, Option.isNone_some,
        Bool.false_eq_true, if_false, hm]
      split
      · simp [hm]
      · exact ih req (some m) hrest

/-- Helper: a single queued entry carrying an active zoom override makes the
loop apply the override and report the entry's target frame exactly when the
32-bit gap between the target frame and the serviced frame is at least the
ramp window. -/
theorem applyOverrideSettingsAux_single_zoom (frame N : Nat) (ovm req : Meta)
    (last : Option Meta) (hflag : overrideFlagActive ovm = true) :
    applyOverrideSettingsAux frame req [⟨some ovm, N⟩] last =
      some ((if kZoomSpeedup ≤ u32sub N frame then N else 0),
        applyOverrideZoomAll ovm req, [], some ovm) := by
  simp only [applyOverrideSettingsAux, Option.isNone_some,
    Bool.false_eq_true, if_false, hflag, if_true]
  split
  · simp [hflag]
  · rfl

/-- C4 (corrected): for a single queued override targeting frame N with an
active zoom flag, `ApplyOverrideSettings` servicing frame f reports the
override's target frame exactly when the unsigned 32-bit difference N − f is
at least `kZoomSpeedup` — that is, for serviced frames at least the ramp
window before the target and, by unsigned wrap-around, for every serviced
frame strictly after the target — and reports no override (0) when N − f is
within the window (the serviced frame lies in the window of `kZoomSpeedup`
frames ending at the target); an empty queue leaves the settings and state
untouched and reports no override; a queue each of whose dequeued entries
carries its own snapshot without an active override flag also reports no
override; and a repeating entry (null settings) dequeued while no previous
override snapshot is cached dereferences a null pointer (modelled as
`none`) rather than reporting anything. -/
theorem C4_override_ramp (f N M : Nat) (ovm req : Meta) (last : Option Meta)
    (st : OverrideState)
    (hflag : overrideFlagActive ovm = true)
    (hq : ∀ e ∈ st.queue, entryFlagInactive e = true) :
    ((applyOverrideSettings f (some req) ⟨[⟨some ovm, N⟩], last⟩).map
        (fun r => r.1) =
      some (if kZoomSpeedup ≤ u32sub N f then N else 0)) ∧
    applyOverrideSettings f (some req) ⟨[], last⟩ =
      some (0, some req, ⟨[], last⟩) ∧
    ((applyOverrideSettings f (some req) st).map (fun r => r.1) = some 0) ∧
    applyOverrideSettings f (some req) ⟨[⟨none, M⟩], none⟩ = none := by
  refine ⟨?_, ?_, ?_, ?_⟩
  · simp [applyOverrideSettings,
      applyOverrideSettingsAux_single_zoom f N ovm req last hflag]
  · simp [applyOverrideSettings, applyOverrideSettingsAux]
  · have hz := applyOverrideSettingsAux_no_active_flag f st.queue req
      st.last_override hq
    cases haux : applyOverrideSettingsAux f req st.queue st.last_override with
    | none => rw [haux] at hz; simp at hz
    | some r =>
      rw [haux] at hz
      simp only [Option.map_some', Option.some.injEq] at hz
      simp [applyOverrideSettings, haux, hz]
  · simp [applyOverrideSettings, applyOverrideSettingsAux]

/-- Witness for C4 at concrete inputs: an override targeting frame 10 with
the zoom flag, serviced at frame 3; a flagless queued snapshot; and the
null-dereference state for a repeating entry with nothing cached. -/
theorem C4_override_ramp_witness :
    (overrideFlagActive [(Tag.settingsOverride, settingsOverrideZoom)] =
      true ∧
     (∀ e ∈ ([⟨some [], 4⟩] : List OverrideEntry),
       entryFlagInactive e = true)) ∧
    (((applyOverrideSettings 3 (some [])
        ⟨[⟨some [(Tag.settingsOverride, settingsOverrideZoom)], 10⟩],
          none⟩).map (fun r => r.1) =
      some (if kZoomSpeedup ≤ u32sub 10 3 then 10 else 0)) ∧
    applyOverrideSettings 3 (some []) ⟨[], none⟩ =
      some (0, some [], ⟨[], none⟩) ∧
    ((applyOverrideSettings 3 (some []) ⟨[⟨some [], 4⟩], none⟩).map
      (fun r => r.1) = some 0) ∧
    applyOverrideSettings 3 (some []) ⟨[⟨none, 4⟩], none⟩ = none) :=
  ⟨⟨by decide, by decide⟩,
   C4_override_ramp 3 10 4 [(Tag.settingsOverride, settingsOverrideZoom)] []
     none ⟨[⟨some [], 4⟩], none⟩ (by decide) (by decide)⟩

/-- Counterexample to C4 as stated: with the ramp window W = 2 and an active
zoom override queued for target frame N = 10, the claim says every serviced
frame from 10 through 11 reports no active override; but servicing frame 11
computes the unsigned 32-bit gap 10 − 11 = 2^32 − 1 ≥ W, so the code reports
the override active with target frame 10. -/
theorem C4_counterexample :
    (applyOverrideSettings 11 (some [])
      ⟨[⟨some [(Tag.settingsOverride, settingsOverrideZoom)], 10⟩],
        none⟩).map (fun r => r.1) = some 10 ∧
    (applyOverrideSettings 11 (some [])
      ⟨[⟨some [(Tag.settingsOverride, settingsOverrideZoom)], 10⟩],
        none⟩).map (fun r => r.1) ≠ some 0 := by
  constructor
  · decide
  · decide

end C4Theorems

section C8Theorems

open ProcessBlock

/-- C8: `ConfigureStreams` is one-shot — a second call fails with
`ALREADY_EXISTS` and leaves the first configuration in place; a submission
before configuration fails with `NO_INIT` (shown for a block whose result
processor is unset or idle, the only states reachable before the first
completed submission); and a submission while a previous submission's
asynchronous completion has not yet reached the result transform is rejected
with the state unchanged, so the block never holds more than one outstanding
request. -/
theorem C8_single_outstanding (blk1 blk2 blk3 : Block)
    (hwl : Except Status Nat) (c : Bool) (s : Status) (rp : ResultProcessor)
    (h1 : blk1.is_configured = true)
    (h2 : blk2.is_configured = false)
    (h2b : blk2.result_processor = none ∨
      blk2.result_processor = some ⟨false⟩)
    (h3 : blk3.result_processor = some rp) (h3b : rp.pending = true) :
    configureStreams blk1 hwl = (.alreadyExists, blk1) ∧
    (processRequests blk2 1 c s).1 = .noInit ∧
    processRequests blk3 1 c s = (.badValue, blk3) := by
  refine ⟨?_, ?_, ?_⟩
  · simp [configureStreams, h1]
  · cases h2b with
    | inl hnone => simp [processRequests, hnone]
    | inr hidle => simp [processRequests, hidle, addPendingRequests, h2]
  · have hrp : rp = ⟨true⟩ := by
      cases rp
      simp_all
    subst hrp
    have hblk : { blk3 with result_processor := some ⟨true⟩ } = blk3 := by
      cases blk3
      simp_all
    simp [processRequests, h3, addPendingRequests, hblk]

/-- Witness for C8 at concrete block states. -/
theorem C8_single_outstanding_witness :
    ((⟨true, 7, some ⟨false⟩⟩ : Block).is_configured = true ∧
     (⟨false, 0, none⟩ : Block).is_configured = false ∧
     (⟨true, 7, some ⟨true⟩⟩ : Block).result_processor = some ⟨true⟩) ∧
    (configureStreams ⟨true, 7, some ⟨false⟩⟩ (.ok 3) =
      (.alreadyExists, ⟨true, 7, some ⟨false⟩⟩) ∧
    (processRequests ⟨false, 0, none⟩ 1 true .ok).1 = .noInit ∧
    processRequests ⟨true, 7, some ⟨true⟩⟩ 1 true .ok =
      (.badValue, ⟨true, 7, some ⟨true⟩⟩)) :=
  ⟨by decide,
   C8_single_outstanding ⟨true, 7, some ⟨false⟩⟩ ⟨false, 0, none⟩
     ⟨true, 7, some ⟨true⟩⟩ (.ok 3) true .ok ⟨true⟩ (by decide) (by decide)
     (Or.inl (by decide)) (by decide) (by decide)⟩

end C8Theorems

section C9Theorems

open RequestProcessor Samples

/-- Helper: a successful single-request admission appends exactly one
pending entry and zero or one override entries, leaving everything already
queued in place. -/
theorem admitOne_ok_shape {P : List Pipeline} {cid f : Nat}
    {orc : AdmissionOracles} {r : HwlPipelineRequest}
    {st st2 : ProcessorState}
    (h : admitOne P cid f orc r st = .ok st2) :
    ∃ p ovp, st2.pending = st.pending ++ [p] ∧
      st2.override_settings = st.override_settings ++ ovp := by
  unfold admitOne at h
  cases hp : P.get? r.pipeline_id with
  | none => rw [hp] at h; exact Except.noConfusion h
  | some pl =>
    rw [hp] at h
    dsimp only at h
    by_cases h1 : kPipelineDepth < st.pending.length
    · rw [if_pos h1] at h; exact Except.noConfusion h
    · rw [if_neg h1] at h
      by_cases h2 : r.dynamic_ok
      · simp only [h2, not_true_eq_false, if_false] at h
        cases hc : createSensorBuffers cid f r.pipeline_id pl.streams pl.cb
            orc 0 0 r.output_buffers with
        | none => rw [hc] at h; exact Except.noConfusion h
        | some outBufs =>
          rw [hc] at h
          simp only [Except.ok.injEq] at h
          subst h
          exact ⟨_, _, rfl, rfl⟩
      · simp only [h2, not_false_eq_true, if_true] at h
        exact Except.noConfusion h

/-- C9: batch request admission is not atomic — when
`ProcessPipelineRequests` fails on the request at position i of the batch,
it returns that error immediately, the final state is exactly the state
after the successful prefix of i requests, each earlier request remains
admitted (one pending entry per admitted request appended to the queue) and
the override-settings queue keeps everything queued so far; nothing is
rolled back. -/
theorem C9_batch_not_atomic (P : List Pipeline) (cid f : Nat)
    (orc : AdmissionOracles) (rs : List HwlPipelineRequest)
    (st st2 : ProcessorState) (e : Status)
    (h : processPipelineRequests P cid f orc rs st = (e, st2))
    (he : e ≠ .ok) :
    ∃ i, ∃ hi : i < rs.length,
      processPipelineRequests P cid f orc (rs.take i) st = (.ok, st2) ∧
      admitOne P cid f orc (rs.get ⟨i, hi⟩) st2 = .error e ∧
      ∃ tail, st2.pending = st.pending ++ tail ∧ tail.length = i ∧
        ∃ ovtail, st2.override_settings = st.override_settings ++ ovtail := by
  induction rs generalizing st with
  | nil =>
    unfold processPipelineRequests at h
    injection h with h1 _
    exact absurd h1.symm he
  | cons r rest ih =>
    unfold processPipelineRequests at h
    cases hadm : admitOne P cid f orc r st with
    | error e2 =>
      rw [hadm] at h
      injection h with h1 h2
      subst h1
      subst h2
      refine ⟨0, by simp, rfl, by simpa using hadm, [], by simp, rfl, [],
        by simp⟩
    | ok stm =>
      rw [hadm] at h
      obtain ⟨i, hi, hpre, hfail, tail, hpend, hlen, ovtail, hov⟩ := ih stm h
      obtain ⟨p, ovp, hp, hop⟩ := admitOne_ok_shape hadm
      refine ⟨i + 1, by simpa using Nat.succ_lt_succ hi, ?_, ?_,
        p :: tail, ?_, by simp [hlen], ovp ++ ovtail, ?_⟩
      · rw [List.take_succ_cons]
        unfold processPipelineRequests
        rw [hadm]
        exact hpre
      · simpa using hfail
      · rw [hpend, hp]
        simp
      · rw [hov, hop]
        simp

/-- Witness for C9 at a concrete two-request batch whose second request
names a nonexistent pipeline. -/
theorem C9_batch_not_atomic_witness :
    (processPipelineRequests [samplePipeline] 7 42 sampleOracles
      [sampleGoodReq, sampleBadReq] ⟨[], []⟩ =
      (.badValue, sampleStateAfter) ∧ Status.badValue ≠ .ok) ∧
    (∃ i, ∃ hi : i < [sampleGoodReq, sampleBadReq].length,
      processPipelineRequests [samplePipeline] 7 42 sampleOracles
        ([sampleGoodReq, sampleBadReq].take i) ⟨[], []⟩ =
        (.ok, sampleStateAfter) ∧
      admitOne [samplePipeline] 7 42 sampleOracles
        ([sampleGoodReq, sampleBadReq].get ⟨i, hi⟩) sampleStateAfter =
        .error .badValue ∧
      ∃ tail, sampleStateAfter.pending = [] ++ tail ∧ tail.length = i ∧
        ∃ ovtail, sampleStateAfter.override_settings = [] ++ ovtail) :=
  ⟨⟨by decide, by decide⟩,
   C9_batch_not_atomic [samplePipeline] 7 42 sampleOracles
     [sampleGoodReq, sampleBadReq] ⟨[], []⟩ sampleStateAfter .badValue
     (by decide) (by decide)⟩

end C9Theorems

section C10Theorems

open RequestProcessor Sensor Samples

/-- C10: every sensor buffer built by `CreateSensorBuffer` starts with its
stream-buffer status in the error state; a buffer the synthesis loop drops
before synthesis is returned unchanged (so still in the error state); a
buffer whose status ends up OK after the per-buffer synthesis pass must have
reached synthesis with the format-specific step succeeding; and input
buffers are flipped to OK when reprocessing completes. -/
theorem C10_buffer_error_by_default
    (cid fn pid ow oh : Nat) (cb : HwlPipelineCallback)
    (stream : EmulatedStream) (sb : StreamBuffer) (lockOk fenceOk : Bool)
    (b bd bp : SensorBuffer) (sIds1 cIds1 sIds2 cIds2 : List Nat)
    (synthOk1 synthOk2 : Bool)
    (hc : createSensorBuffer cid fn pid cb stream sb ow oh lockOk fenceOk =
      some b)
    (hd : (synthesizeBuffer sIds1 cIds1 synthOk1 bd).2 = false)
    (hp : bp.stream_buffer.status = .error) :
    b.stream_buffer.status = .error ∧
    (synthesizeBuffer sIds1 cIds1 synthOk1 bd).1 = bd ∧
    ((synthesizeBuffer sIds2 cIds2 synthOk2 bp).1.stream_buffer.status =
        .ok →
      (synthesizeBuffer sIds2 cIds2 synthOk2 bp).2 = true ∧
        synthOk2 = true) ∧
    (∀ (bs : List SensorBuffer) (b2 : SensorBuffer),
      b2 ∈ completeReprocessInputs bs → b2.stream_buffer.status = .ok) := by
  refine ⟨?_, ?_, ?_, ?_⟩
  · simp only [createSensorBuffer] at hc
    split at hc
    · exact Option.noConfusion hc
    · split at hc
      · exact Option.noConfusion hc
      · injection hc with hb
        subst hb
        rfl
  · by_cases hs1 : bd.camera_id ∈ sIds1
    · by_cases hc1 : bd.camera_id ∈ cIds1
      · exfalso
        revert hd
        cases synthOk1 <;> simp [synthesizeBuffer, hs1, hc1]
      · simp [synthesizeBuffer, hs1, hc1]
    · simp [synthesizeBuffer, hs1]
  · intro hok
    by_cases hs2 : bp.camera_id ∈ sIds2
    · by_cases hc2 : bp.camera_id ∈ cIds2
      · cases hsy : synthOk2 with
        | false => rw [hsy] at hok; simp [synthesizeBuffer, hs2, hc2] at hok
        | true => exact ⟨by simp [synthesizeBuffer, hs2, hc2, hsy], rfl⟩
      · simp [synthesizeBuffer, hs2, hc2, hp] at hok
    · simp [synthesizeBuffer, hs2, hp] at hok
  · intro bs b2 hmem
    unfold completeReprocessInputs at hmem
    obtain ⟨b3, _, hb3⟩ := List.mem_map.mp hmem
    rw [← hb3]

/-- Witness for C10 at concrete buffers: the buffer produced for
`sampleBuf`, dropped when camera 7 has no latched settings, and flipped to
OK when settings and characteristics for camera 7 are present and synthesis
succeeds. -/
theorem C10_buffer_error_by_default_witness :
    (createSensorBuffer 7 42 0 sampleCb sampleStream sampleBuf 0 0 true true =
      some sampleSensorBuf ∧
     (synthesizeBuffer [] [] true sampleSensorBuf).2 = false ∧
     sampleSensorBuf.stream_buffer.status = .error) ∧
    (sampleSensorBuf.stream_buffer.status = .error ∧
    (synthesizeBuffer [] [] true sampleSensorBuf).1 = sampleSensorBuf ∧
    ((synthesizeBuffer [7] [7] true sampleSensorBuf).1.stream_buffer.status =
        .ok →
      (synthesizeBuffer [7] [7] true sampleSensorBuf).2 = true ∧
        true = true) ∧
    (∀ (bs : List SensorBuffer) (b2 : SensorBuffer),
      b2 ∈ completeReprocessInputs bs → b2.stream_buffer.status = .ok)) :=
  ⟨⟨by decide, by decide, by decide⟩,
   C10_buffer_error_by_default 7 42 0 0 0 sampleCb sampleStream sampleBuf
     true true sampleSensorBuf sampleSensorBuf sampleSensorBuf [] [] [7] [7]
     true true (by decide) (by decide) (by decide)⟩

end C10Theorems

section C7Theorems

open RequestProcessor Sensor Samples

/-- C7: a capture request with a null settings pointer is serviced using the
cached `last_settings_` snapshot — shown with an empty override queue, so
the snapshot is latched into the sensor unchanged and remains cached — and
when no cached snapshot exists the request is not latched (it never reaches
synthesis) and fails with a per-frame error-result notification. -/
theorem C7_null_settings_reuse (logicalId partialCount : Nat)
    (syncOk : SensorBuffer → Bool) (req : PendingRequest) (m : Meta)
    (ov : OverrideState) (obs : List SensorBuffer)
    (hset : req.settings = none)
    (hb : acquireBuffers syncOk req.output_buffers = some obs)
    (hne : obs ≠ []) :
    (ov.queue = [] →
      serviceOneRequest logicalId syncOk partialCount req (some m) ov =
        some ([], some ⟨some [(logicalId, m)],
            some ⟨req.frame_number, req.pipeline_id, true, 0⟩,
            some ⟨req.frame_number, req.pipeline_id, true, partialCount⟩,
            acquireBuffers syncOk req.input_buffers, some obs⟩,
          some m, ov)) ∧
    serviceOneRequest logicalId syncOk partialCount req none ov =
      some ([.errorNotify req.frame_number .errorResult], none, none,
        ov) := by
  constructor
  · intro hq
    obtain ⟨q, lo⟩ := ov
    simp only at hq
    subst hq
    simp [serviceOneRequest, hset, hb, hne, applyOverrideSettings,
      applyOverrideSettingsAux, initializeLogicalSettings]
  · simp [serviceOneRequest, hset, hb, hne, applyOverrideSettings,
      initializeLogicalSettings]

/-- Witness for C7 at a concrete pending request with one output buffer. -/
theorem C7_null_settings_reuse_witness :
    (samplePendingReq.settings = none ∧
     acquireBuffers (fun _ => true) samplePendingReq.output_buffers =
       some [sampleSensorBuf] ∧
     [sampleSensorBuf] ≠ []) ∧
    (((⟨[], none⟩ : OverrideState).queue = [] →
      serviceOneRequest 7 (fun _ => true) 1 samplePendingReq
        (some [(Tag.zoomRatio, 2)]) ⟨[], none⟩ =
        some ([], some ⟨some [(7, [(Tag.zoomRatio, 2)])],
            some ⟨samplePendingReq.frame_number,
              samplePendingReq.pipeline_id, true, 0⟩,
            some ⟨samplePendingReq.frame_number,
              samplePendingReq.pipeline_id, true, 1⟩,
            acquireBuffers (fun _ => true) samplePendingReq.input_buffers,
            some [sampleSensorBuf]⟩,
          some [(Tag.zoomRatio, 2)], ⟨[], none⟩)) ∧
    serviceOneRequest 7 (fun _ => true) 1 samplePendingReq none ⟨[], none⟩ =
      some ([.errorNotify samplePendingReq.frame_number .errorResult], none,
        none, ⟨[], none⟩)) :=
  ⟨⟨by decide, by decide, by decide⟩,
   C7_null_settings_reuse 7 1 (fun _ => true) samplePendingReq
     [(Tag.zoomRatio, 2)] ⟨[], none⟩ [sampleSensorBuf] (by decide) (by decide)
     (by decide)⟩

end C7Theorems

section SensorTraceHelpers

open Sensor

/-- Helper: the events emitted by `ReturnResults` take one of three shapes —
nothing, just the final result, or the partial result immediately followed
by the final result. -/
theorem returnResults_shape (chars : List Nat) (lid : Nat)
    (cb : HwlPipelineCallback) (s : Option LogicalSettings)
    (rOpt pOpt : Option HwlPipelineResult) :
    returnResults chars lid cb s rOpt pOpt = [] ∨
    (∃ r, rOpt = some r ∧
      returnResults chars lid cb s rOpt pOpt =
        [.finalResult r.frame_number]) ∨
    (∃ r p, rOpt = some r ∧ pOpt = some p ∧
      returnResults chars lid cb s rOpt pOpt =
        [.partialResult p.frame_number, .finalResult r.frame_number]) := by
  cases rOpt with
  | none => exact Or.inl rfl
  | some r =>
    by_cases hcb : cb.has_process_result = true ∧ r.has_metadata = true
    · cases s with
      | none => exact Or.inl (by simp [returnResults, hcb])
      | some sl =>
        cases hl : assocLookup sl lid with
        | none => exact Or.inl (by simp [returnResults, hcb, hl])
        | some x =>
          by_cases hch : lid ∈ chars
          · cases pOpt with
            | none =>
              exact Or.inr (Or.inl ⟨r, rfl,
                by simp [returnResults, hcb, hl, hch]⟩)
            | some p =>
              by_cases hpc : p.partial_count = 0
              · exact Or.inr (Or.inl ⟨r, rfl,
                  by simp [returnResults, hcb, hl, hch, hpc]⟩)
              · exact Or.inr (Or.inr ⟨r, p, rfl, rfl,
                  by simp [returnResults, hcb, hl, hch, hpc]⟩)
          · exact Or.inl (by simp [returnResults, hcb, hl, hch])
    · exact Or.inl (by simp [returnResults, hcb])

/-- Helper: `ReturnResults` with the all-null callback emits nothing. -/
theorem returnResults_null_cb (chars : List Nat) (lid : Nat)
    (s : Option LogicalSettings) (rOpt pOpt : Option HwlPipelineResult) :
    returnResults chars lid ⟨false, false⟩ s rOpt pOpt = [] := by
  cases rOpt <;> simp [returnResults]

/-- Helper: one loop iteration is the shutter events followed by exactly one
effective `ReturnResults` call — on the early-deadline branch the second,
post-sleep call sees the moved-from null state and emits nothing. -/
theorem threadLoopIter_eq (chars : List Nat) (lid : Nat)
    (latch : LatchPayload) (early : Bool) :
    threadLoopIter chars lid latch early =
      shutterEvents latch ++
        returnResults chars lid (latchCallback latch) latch.settings
          latch.result latch.partial_result := by
  cases early <;> simp [threadLoopIter, returnResults]

/-- Helper: shutter events are not result events. -/
theorem filter_shutterEvents (f : Nat) (latch : LatchPayload) :
    (shutterEvents latch).filter (isResultEventFor f) = [] := by
  unfold shutterEvents
  split
  · split
    · simp [isResultEventFor]
    · rfl
  · rfl

/-- Helper: an iteration whose latched payload does not mention frame f
emits no result events for f. -/
theorem iter_filter_no_mention (chars : List Nat) (lid : Nat)
    (latch : LatchPayload) (early : Bool) (f : Nat)
    (hm : payloadMentions latch f = false) :
    (threadLoopIter chars lid latch early).filter (isResultEventFor f) =
      [] := by
  rw [threadLoopIter_eq, List.filter_append, filter_shutterEvents]
  rw [List.nil_append]
  rcases returnResults_shape chars lid (latchCallback latch) latch.settings
      latch.result latch.partial_result with h | ⟨r, hr, h⟩ |
      ⟨r, p, hr, hp, h⟩
  · rw [h]; rfl
  · rw [h]
    have hrf : r.frame_number ≠ f := by
      simp [payloadMentions, hr] at hm
      exact hm.1
    simp [isResultEventFor, hrf]
  · rw [h]
    have hm2 := hm
    simp [payloadMentions, hr, hp] at hm2
    simp [isResultEventFor, hm2.1, hm2.2]

/-- Helper: with a frame-coherent payload, the result events of one
iteration for frame f are nothing, a lone final result, or a partial result
immediately followed by the final result. -/
theorem iter_filter_shape (chars : List Nat) (lid : Nat)
    (latch : LatchPayload) (early : Bool) (f : Nat)
    (hc : payloadCoherent latch = true) :
    (threadLoopIter chars lid latch early).filter (isResultEventFor f) =
        [] ∨
    (threadLoopIter chars lid latch early).filter (isResultEventFor f) =
        [.finalResult f] ∨
    (threadLoopIter chars lid latch early).filter (isResultEventFor f) =
        [.partialResult f, .finalResult f] := by
  rw [threadLoopIter_eq, List.filter_append, filter_shutterEvents]
  rw [List.nil_append]
  rcases returnResults_shape chars lid (latchCallback latch) latch.settings
      latch.result latch.partial_result with h | ⟨r, hr, h⟩ |
      ⟨r, p, hr, hp, h⟩
  · exact Or.inl (by rw [h]; rfl)
  · rw [h]
    by_cases he : r.frame_number = f
    · exact Or.inr (Or.inl (by simp [isResultEventFor, he]))
    · exact Or.inl (by simp [isResultEventFor, he])
  · rw [h]
    have hco : p.frame_number = r.frame_number := by
      simp [payloadCoherent, hr, hp] at hc
      exact hc
    by_cases he : r.frame_number = f
    · refine Or.inr (Or.inr ?_)
      rw [hco, he]
      simp [isResultEventFor]
    · have hpf : p.frame_number ≠ f := by rw [hco]; exact he
      exact Or.inl (by simp [isResultEventFor, he, hpf])

/-- Helper: a run none of whose latched payloads mentions frame f emits no
result events for f. -/
theorem sensorRun_filter_no_mention (chars : List Nat) (lid : Nat) (f : Nat)
    (inputs : List (Option LatchPayload × Bool))
    (h : ∀ inp ∈ inputs, mentionsOpt inp.1 f = false) :
    (sensorRun chars lid emptyLatch inputs).filter (isResultEventFor f) =
      [] := by
  induction inputs with
  | nil => rfl
  | cons inp rest ih =>
    obtain ⟨op, e⟩ := inp
    rw [show sensorRun chars lid emptyLatch ((op, e) :: rest) =
      threadLoopIter chars lid (op.getD emptyLatch) e ++
        sensorRun chars lid emptyLatch rest from rfl]
    rw [List.filter_append]
    have hhead : payloadMentions (op.getD emptyLatch) f = false := by
      cases op with
      | none => rfl
      | some p => exact h (some p, e) (by simp)
    rw [iter_filter_no_mention chars lid _ e f hhead, List.nil_append]
    exact ih (fun inp2 h2 => h inp2 (by simp [h2]))

end SensorTraceHelpers

section C3Theorems

open Sensor Samples

/-- C3: over a sensor-loop run in which each frame is latched at most once
(at most one supplied payload mentions frame f) and payloads are
frame-coherent, the result events for frame f are nothing, a lone final
result, or a partial result strictly before the final result — in
particular at most one final result is ever emitted for f, even though the
loop may invoke the result-return path twice per iteration. -/
theorem C3_result_ordering (chars : List Nat) (lid : Nat)
    (inputs : List (Option LatchPayload × Bool)) (f : Nat)
    (hcoh : ∀ inp ∈ inputs, ∀ p, inp.1 = some p → payloadCoherent p = true)
    (hcount : inputs.countP (fun inp => mentionsOpt inp.1 f) ≤ 1) :
    (sensorRun chars lid emptyLatch inputs).filter (isResultEventFor f) =
        [] ∨
    (sensorRun chars lid emptyLatch inputs).filter (isResultEventFor f) =
        [.finalResult f] ∨
    (sensorRun chars lid emptyLatch inputs).filter (isResultEventFor f) =
        [.partialResult f, .finalResult f] := by
  induction inputs with
  | nil => exact Or.inl rfl
  | cons inp rest ih =>
    obtain ⟨op, e⟩ := inp
    rw [show sensorRun chars lid emptyLatch ((op, e) :: rest) =
      threadLoopIter chars lid (op.getD emptyLatch) e ++
        sensorRun chars lid emptyLatch rest from rfl]
    rw [List.filter_append]
    by_cases hm : mentionsOpt op f = true
    · have hrest0 : rest.countP (fun inp => mentionsOpt inp.1 f) = 0 := by
        rw [List.countP_cons] at hcount
        simp only [hm, if_pos] at hcount
        omega
      have htail : (sensorRun chars lid emptyLatch rest).filter
          (isResultEventFor f) = [] := by
        apply sensorRun_filter_no_mention
        intro inp2 h2
        have := List.countP_eq_zero.mp hrest0 inp2 h2
        simpa using this
      rw [htail, List.append_nil]
      cases op with
      | none => simp [mentionsOpt] at hm
      | some p =>
        have hc := hcoh (some p, e) (by simp) p rfl
        simpa using iter_filter_shape chars lid p e f hc
    · have hhead : payloadMentions (op.getD emptyLatch) f = false := by
        cases op with
        | none => rfl
        | some p => simpa [mentionsOpt] using hm
      rw [iter_filter_no_mention chars lid _ e f hhead, List.nil_append]
      refine ih (fun inp2 h2 p2 hp2 => hcoh inp2 (by simp [h2]) p2 hp2) ?_
      rw [List.countP_cons] at hcount
      omega

/-- Witness for C3 at a concrete single-frame run. -/
theorem C3_result_ordering_witness :
    ((∀ inp ∈ [(some sampleLatch, false)], ∀ p : LatchPayload,
        inp.1 = some p → payloadCoherent p = true) ∧
     [(some sampleLatch, false)].countP
        (fun inp => mentionsOpt inp.1 42) ≤ 1) ∧
    ((sensorRun [7] 7 emptyLatch [(some sampleLatch, false)]).filter
        (isResultEventFor 42) = [] ∨
     (sensorRun [7] 7 emptyLatch [(some sampleLatch, false)]).filter
        (isResultEventFor 42) = [.finalResult 42] ∨
     (sensorRun [7] 7 emptyLatch [(some sampleLatch, false)]).filter
        (isResultEventFor 42) = [.partialResult 42, .finalResult 42]) :=
  ⟨⟨by decide, by decide⟩,
   C3_result_ordering [7] 7 [(some sampleLatch, false)] 42 (by decide)
     (by decide)⟩

end C3Theorems

section C6Theorems

open Sensor Samples

/-- Helper: the frame number of the latched final result under
`payloadFrame`. -/
theorem payloadFrame_result {p : LatchPayload} {f : Nat}
    {r : HwlPipelineResult} (hf : payloadFrame p f = true)
    (hr : p.result = some r) : r.frame_number = f := by
  unfold payloadFrame at hf
  rw [hr] at hf
  simp at hf
  exact hf.1.1

/-- Helper: the frame number of the latched partial result under
`payloadFrame`. -/
theorem payloadFrame_partial {p : LatchPayload} {f : Nat}
    {q : HwlPipelineResult} (hf : payloadFrame p f = true)
    (hq : p.partial_result = some q) : q.frame_number = f := by
  unfold payloadFrame at hf
  rw [hq] at hf
  simp at hf
  exact hf.1.2

/-- Helper: the frame number of any latched output buffer under
`payloadFrame`. -/
theorem payloadFrame_buffer {p : LatchPayload} {f : Nat}
    {l : List SensorBuffer} {b : SensorBuffer}
    (hf : payloadFrame p f = true) (hl : p.output_buffers = some l)
    (hb : b ∈ l) : b.frame_number = f := by
  unfold payloadFrame at hf
  rw [hl] at hf
  simp [List.all_eq_true] at hf
  exact hf.2 b hb

/-- C6: in one scheduler iteration whose latched payload carries frame f
everywhere and whose buffer callbacks have notify wired, the emitted trace
is one of: nothing; just the shutter; shutter then final result; shutter
then partial then final — so the shutter notification carrying the computed
timestamps strictly precedes any partial or final result of the frame, and
the order is always shutter, then partial, then final. -/
theorem C6_shutter_precedes_results (chars : List Nat) (lid : Nat)
    (latch : LatchPayload) (early : Bool) (f : Nat)
    (hf : payloadFrame latch f = true) (hn : notifyWired latch = true) :
    threadLoopIter chars lid latch early = [] ∨
    threadLoopIter chars lid latch early = [.shutter f] ∨
    threadLoopIter chars lid latch early = [.shutter f, .finalResult f] ∨
    threadLoopIter chars lid latch early =
      [.shutter f, .partialResult f, .finalResult f] := by
  rw [threadLoopIter_eq]
  cases hob : latch.output_buffers with
  | none =>
    have hcb : latchCallback latch = ⟨false, false⟩ := by
      simp [latchCallback, hob]
    have hsh : shutterEvents latch = [] := by
      simp [shutterEvents, hob]
    rw [hsh, hcb, returnResults_null_cb]
    exact Or.inl rfl
  | some l =>
    cases l with
    | nil =>
      have hcb : latchCallback latch = ⟨false, false⟩ := by
        simp [latchCallback, hob]
      have hsh : shutterEvents latch = [] := by
        simp [shutterEvents, hob]
      rw [hsh, hcb, returnResults_null_cb]
      exact Or.inl rfl
    | cons b rest0 =>
      cases hset : latch.settings with
      | none =>
        have hcb : latchCallback latch = ⟨false, false⟩ := by
          simp [latchCallback, hob, hset]
        have hsh : shutterEvents latch = [] := by
          simp [shutterEvents, hob, hset]
        rw [hsh, hcb, returnResults_null_cb]
        exact Or.inl rfl
      | some sl =>
        have hbn : b.callback.has_notify = true := by
          unfold notifyWired at hn
          rw [hob] at hn
          simp [List.all_eq_true] at hn
          exact hn.1
        have hcb : latchCallback latch = b.callback := by
          simp [latchCallback, hob, hset]
        have hbf : b.frame_number = f :=
          payloadFrame_buffer hf hob (by simp)
        have hsh : shutterEvents latch = [.shutter f] := by
          simp [shutterEvents, hob, hset, hcb, hbn, hbf]
        rw [hsh, hcb]
        rcases returnResults_shape chars lid b.callback (some sl)
            latch.result latch.partial_result with h | ⟨r, hr, h⟩ |
            ⟨r, p, hr, hp, h⟩
        · rw [h]
          exact Or.inr (Or.inl rfl)
        · rw [h, payloadFrame_result hf hr]
          exact Or.inr (Or.inr (Or.inl rfl))
        · rw [h, payloadFrame_result hf hr, payloadFrame_partial hf hp]
          exact Or.inr (Or.inr (Or.inr rfl))

/-- Witness for C6 at a concrete latched frame. -/
theorem C6_shutter_precedes_results_witness :
    (payloadFrame sampleLatch 42 = true ∧
     notifyWired sampleLatch = true) ∧
    (threadLoopIter [7] 7 sampleLatch false = [] ∨
     threadLoopIter [7] 7 sampleLatch false = [.shutter 42] ∨
     threadLoopIter [7] 7 sampleLatch false =
       [.shutter 42, .finalResult 42] ∨
     threadLoopIter [7] 7 sampleLatch false =
       [.shutter 42, .partialResult 42, .finalResult 42]) :=
  ⟨⟨by decide, by decide⟩,
   C6_shutter_precedes_results [7] 7 sampleLatch false 42 (by decide)
     (by decide)⟩

end C6Theorems

section C5Theorems

open RequestProcessor Sensor Samples

/-- C5 (corrected): flushing with K requests queued and one latched
in-flight frame (with result metadata and a wired notify callback) emits
exactly K + 1 error notifications — the error-result notification for the
interrupted frame followed by one error-request notification per queued
frame, each exactly once when the frames are distinct — and zero result or
shutter callbacks; the queue is drained, the latched output buffers are all
marked with error status and every drained request's output buffers are
flagged as failed.  The vsync wait, however, is not bounded by the
frame-duration timeout: a timed-out wait without a vsync signal is retried,
so the wait outlasts any number of full timeout periods. -/
theorem C5_flush_notifications (latch : LatchPayload) (waitRet : Bool)
    (pending : List PendingRequest) (b0 : SensorBuffer)
    (bs : List SensorBuffer) (r : HwlPipelineResult)
    (hout : latch.output_buffers = some (b0 :: bs))
    (hres : latch.result = some r) (hmeta : r.has_metadata = true)
    (hnot : b0.callback.has_notify = true) :
    (flush latch waitRet pending).events =
      .errorNotify b0.frame_number .errorResult ::
        pending.map (fun p => .errorNotify p.frame_number .errorRequest) ∧
    (flush latch waitRet pending).events.length = pending.length + 1 ∧
    (∀ e ∈ (flush latch waitRet pending).events,
      ∃ fr c, e = .errorNotify fr c) ∧
    ((b0.frame_number :: pending.map (fun p => p.frame_number)).Nodup →
      (flush latch waitRet pending).events.Nodup) ∧
    (flush latch waitRet pending).remaining = [] ∧
    (∀ b ∈ (flush latch waitRet pending).flushed_sensor_buffers,
      b.stream_buffer.status = .error) ∧
    (∀ p2 ∈ (flush latch waitRet pending).drained_requests,
      ∀ obs2, p2.output_buffers = some obs2 →
        ∀ b ∈ obs2, b.is_failed_request = true) ∧
    (∀ n, waitForVSyncLocked (List.replicate n (.timedOut false)) =
      none) := by
  have hev : (flush latch waitRet pending).events =
      .errorNotify b0.frame_number .errorResult ::
        pending.map (fun p => .errorNotify p.frame_number .errorRequest) := by
    simp [flush, sensorFlush, hout, hres, hmeta, hnot, notifyFailedRequest,
      List.map_map, Function.comp]
  refine ⟨hev, ?_, ?_, ?_, rfl, ?_, ?_, ?_⟩
  · rw [hev]
    simp
  · intro e he
    rw [hev] at he
    simp only [List.mem_cons, List.mem_map] at he
    rcases he with he | ⟨p, _, he⟩
    · exact ⟨b0.frame_number, .errorResult, he⟩
    · exact ⟨p.frame_number, .errorRequest, he.symm⟩
  · intro hnd
    rw [hev, List.nodup_cons]
    constructor
    · intro hmem
      simp only [List.mem_map] at hmem
      obtain ⟨p, _, he⟩ := hmem
      simp at he
    · have hmm : pending.map
          (fun p => SensorEvent.errorNotify p.frame_number .errorRequest) =
          (pending.map (fun p => p.frame_number)).map
            (fun fr => SensorEvent.errorNotify fr .errorRequest) := by
        rw [List.map_map]
        rfl
      rw [hmm]
      refine List.Nodup.map ?_ (List.nodup_cons.mp hnd).2
      intro x y hxy
      simpa using hxy
  · intro b hb
    simp only [flush, sensorFlush, hout] at hb
    simp only [List.mem_map] at hb
    obtain ⟨b3, _, hb3⟩ := hb
    rw [← hb3]
  · intro p2 hp2 obs2 hobs2 b hb
    simp only [flush, List.mem_map] at hp2
    obtain ⟨q2, ⟨q, _, hq3⟩, hq2⟩ := hp2
    rw [← hq2, ← hq3] at hobs2
    unfold notifyFailedRequest at hobs2
    cases hqo : q.output_buffers with
    | none => rw [hqo] at hobs2; simp at hobs2
    | some l =>
      rw [hqo] at hobs2
      simp only [Option.map_some', Option.some.injEq] at hobs2
      rw [← hobs2] at hb
      simp only [List.mem_map] at hb
      obtain ⟨b3, _, hb3⟩ := hb
      rw [← hb3]
  · intro n
    induction n with
    | zero => rfl
    | succ n ih => simpa [List.replicate_succ, waitForVSyncLocked] using ih

/-- Witness for C5: one queued request at frame 43, a latched in-flight
frame 42. -/
theorem C5_flush_notifications_witness :
    (sampleLatch.output_buffers = some [sampleSensorBuf] ∧
     sampleLatch.result = some sampleResult ∧
     sampleResult.has_metadata = true ∧
     sampleSensorBuf.callback.has_notify = true) ∧
    ((flush sampleLatch true [samplePendingReq2]).events =
      .errorNotify sampleSensorBuf.frame_number .errorResult ::
        [samplePendingReq2].map
          (fun p => .errorNotify p.frame_number .errorRequest) ∧
    (flush sampleLatch true [samplePendingReq2]).events.length =
      [samplePendingReq2].length + 1 ∧
    (∀ e ∈ (flush sampleLatch true [samplePendingReq2]).events,
      ∃ fr c, e = .errorNotify fr c) ∧
    ((sampleSensorBuf.frame_number ::
        [samplePendingReq2].map (fun p => p.frame_number)).Nodup →
      (flush sampleLatch true [samplePendingReq2]).events.Nodup) ∧
    (flush sampleLatch true [samplePendingReq2]).remaining = [] ∧
    (∀ b ∈ (flush sampleLatch true [samplePendingReq2]).flushed_sensor_buffers,
      b.stream_buffer.status = .error) ∧
    (∀ p2 ∈ (flush sampleLatch true [samplePendingReq2]).drained_requests,
      ∀ obs2, p2.output_buffers = some obs2 →
        ∀ b ∈ obs2, b.is_failed_request = true) ∧
    (∀ n, waitForVSyncLocked (List.replicate n (.timedOut false)) =
      none)) :=
  ⟨⟨by decide, by decide, by decide, by decide⟩,
   C5_flush_notifications sampleLatch true [samplePendingReq2]
     sampleSensorBuf [] sampleResult (by decide) (by decide) (by decide)
     (by decide)⟩

/-- Counterexample to C5 as stated: the claim bounds the wait for the
in-flight frame by the frame-duration timeout, but after one full wait
period that timed out with no vsync signal the wait loop of
`EmulatedSensor::Flush` has neither finished nor failed — it is still
waiting, because a timed-out `waitRelative` is explicitly tolerated and
retried (EmulatedSensor.cpp:704-710). -/
theorem C5_counterexample :
    waitForVSyncLocked [CvOutcome.timedOut false] = none := rfl

end C5Theorems

/-- Witness for C2 at a concrete cache state. -/
theorem C2_cache_identity_witness :
    cacheLookup [(⟨1, 2⟩, 5)] ⟨1, 2⟩ = some 5 ∧
    (addImportedBufferHandlesLocked [(⟨1, 2⟩, 5)] ⟨1, 2⟩ 5 =
      (.ok, [(⟨1, 2⟩, 5)]) ∧
    (7 ≠ 5 →
      addImportedBufferHandlesLocked [(⟨1, 2⟩, 5)] ⟨1, 2⟩ 7 =
        (.badValue, [(⟨1, 2⟩, 5)]) ∧
      cacheLookup (addImportedBufferHandlesLocked [(⟨1, 2⟩, 5)] ⟨1, 2⟩ 7).2
        ⟨1, 2⟩ = some 5)) :=
  ⟨by decide, C2_cache_identity [(⟨1, 2⟩, 5)] ⟨1, 2⟩ 5 7 (by decide)⟩

end CameraHal
